import Mathlib

/-!
Shallow embedding of the Soulmate-AI live-call pipeline (the `LiveView`
component) and of the text-chat component (`DeepChat.tsx`), together with
proofs about the properties the specification states for them.

The live-call component is embedded as an explicit state machine: the
mutable refs of the component become fields of `LiveState`, each event
handler (connect, the SDK callbacks `onopen`/`onmessage`/`onclose`/`onerror`,
the audio-capture callback, the video-frame timer tick, disconnect, and the
`ended` listener of a playback node) becomes one case of the step function,
and the externally observable operations (sending an outbound payload,
scheduling an inbound chunk, stopping a playback node, logging an error)
are emitted as `Action`s.
-/

namespace Soulmate

/-- `ConnectionState` enum from `types.ts`. -/
inductive ConnectionState where
  | DISCONNECTED
  | CONNECTING
  | CONNECTED
  | ERROR
deriving DecidableEq

/-- The mutable refs and React state of the `LiveView` component.
Presence of an object in a ref is modelled as a `Bool` (`true` = the ref is
non-null); the playback cursor `nextStartTimeRef` and the playback clock are
modelled as rationals; `sourceNodesRef` is the list of ids of the currently
registered `AudioBufferSourceNode`s. -/
structure LiveState where
  connectionState : ConnectionState
  err : Option String
  streamPresent : Bool
  inputCtxPresent : Bool
  outputCtxPresent : Bool
  sessionPresent : Bool
  videoIntervalPresent : Bool
  isConnected : Bool
  nextStartTime : ℚ
  sourceNodes : List ℕ
deriving DecidableEq

/-- Externally observable operations performed by the component. -/
inductive Action where
  | sendPcmChunk : Action
  | sendVideoFrame : Action
  | scheduleChunk : ℕ → ℚ → Action
  | stopHandle : ℕ → Action
  | logError : String → Action
deriving DecidableEq

/-- Events driving the component.  `connectCall apiKeyPresent cameraOk initOk t0`
is a click on the call button (`t0` is the fresh output context clock);
`onmessage parts decodeResult interrupted now handle` is an inbound server
message, where `parts` lists the optional `inlineData.data` of each part of
the model turn, `decodeResult` is the environment answer of
`decodeAudioData` for the extracted chunk (`some d` = a buffer of duration
`d`, `none` = the decode throws), `now` is `audioContext.currentTime` at the
moment the handler runs and `handle` the id of the freshly created source
node. -/
inductive Event where
  | connectCall : Bool → Bool → Bool → ℚ → Event
  | onopen : Event
  | audioCallback : Event
  | videoTick : Event
  | onmessage : List (Option String) → Option ℚ → Bool → ℚ → ℕ → Event
  | onclose : Event
  | onerror : Event
  | disconnect : Event
  | sourceEnded : ℕ → Event

/-- The `connectToLiveApi` handler (including `startCamera`).  The call
button is only rendered while the state is `DISCONNECTED` or `ERROR`, so the
event is a no-op otherwise.  Order of the source: missing API key check,
camera acquisition (error + abort on failure, before `setConnectionState`),
transition to `CONNECTING`, then client construction; a synchronous throw of
the client constructor lands in the catch that sets `ERROR`. -/
def connectCallStep (s : LiveState) (apiKeyPresent cameraOk initOk : Bool)
    (t0 : ℚ) : LiveState × List Action :=
  if s.connectionState = ConnectionState.DISCONNECTED ∨
      s.connectionState = ConnectionState.ERROR then
    if apiKeyPresent then
      if s.streamPresent ∨ cameraOk then
        let s1 : LiveState :=
          { s with streamPresent := true,
                   connectionState := ConnectionState.CONNECTING,
                   err := none }
        if initOk then
          ({ s1 with inputCtxPresent := true, outputCtxPresent := true,
                     nextStartTime := t0, sessionPresent := true }, [])
        else
          ({ s1 with connectionState := ConnectionState.ERROR,
                     err := some "Failed to initialize Gemini Client.",
                     isConnected := false },
           [Action.logError "Failed to initialize Gemini Client."])
      else
        ({ s with err := some "Camera/Mic permission denied or unavailable." },
         [Action.logError "Error accessing media devices:"])
    else
      ({ s with err := some "API Key is missing." }, [])
  else (s, [])

/-- `message.serverContent?.modelTurn?.parts?.[0]?.inlineData?.data`: the
inline data of the first part, if any. -/
def firstPartData : List (Option String) → Option String
  | [] => none
  | p :: _ => p

/-- The audio half of the `onmessage` callback: if a chunk is present and
the output context exists, clamp the cursor up to the clock, then try to
decode; on success schedule at the clamped cursor, register the node and
advance the cursor by the duration; on failure log and drop. -/
def audioPhaseStep (s : LiveState) (chunk : Option String)
    (decodeResult : Option ℚ) (now : ℚ) (handle : ℕ) : LiveState × List Action :=
  match chunk with
  | some _ =>
    if s.outputCtxPresent then
      let st := max s.nextStartTime now
      match decodeResult with
      | some d =>
        ({ s with nextStartTime := st + d,
                  sourceNodes := handle :: s.sourceNodes },
         [Action.scheduleChunk handle st])
      | none =>
        ({ s with nextStartTime := st },
         [Action.logError "Error decoding audio:"])
    else (s, [])
  | none => (s, [])

/-- The `onmessage` callback: run the audio half on the first part's inline
data, then, if the message carries the `interrupted` flag, stop every
registered node, clear the set and (if the output context exists) reset the
cursor to the clock. -/
def onmessageStep (s : LiveState) (parts : List (Option String))
    (decodeResult : Option ℚ) (interrupted : Bool) (now : ℚ) (handle : ℕ) :
    LiveState × List Action :=
  let audioPhase := audioPhaseStep s (firstPartData parts) decodeResult now handle
  let s1 := audioPhase.1
  if interrupted then
    ({ s1 with sourceNodes := [],
               nextStartTime := if s1.outputCtxPresent then now
                                else s1.nextStartTime },
     audioPhase.2 ++ s1.sourceNodes.map Action.stopHandle)
  else (s1, audioPhase.2)

/-- One step of the component.  `audioCallback` and `videoTick` check the
connected flag and the session ref at the moment they run (the source checks
`isConnectedRef.current` both before encoding and again inside the `.then`
of the session promise; both checks collapse into one in an atomic step).
`disconnect` mirrors the teardown order of the source and touches neither
the cursor, the registered nodes nor the error message. -/
def step (s : LiveState) : Event → LiveState × List Action
  | Event.connectCall apiKeyPresent cameraOk initOk t0 =>
      connectCallStep s apiKeyPresent cameraOk initOk t0
  | Event.onopen =>
      ({ s with connectionState := ConnectionState.CONNECTED,
                isConnected := true, videoIntervalPresent := true }, [])
  | Event.audioCallback =>
      if s.isConnected ∧ s.sessionPresent then (s, [Action.sendPcmChunk])
      else (s, [])
  | Event.videoTick =>
      if s.videoIntervalPresent ∧ s.isConnected ∧ s.sessionPresent then
        (s, [Action.sendVideoFrame])
      else (s, [])
  | Event.onmessage parts decodeResult interrupted now handle =>
      onmessageStep s parts decodeResult interrupted now handle
  | Event.onclose =>
      ({ s with connectionState := ConnectionState.DISCONNECTED,
                isConnected := false }, [])
  | Event.onerror =>
      ({ s with connectionState := ConnectionState.ERROR,
                isConnected := false,
                err := some "Connection error. Please try again." },
       [Action.logError "Live API Error:"])
  | Event.disconnect =>
      ({ s with isConnected := false, sessionPresent := false,
                inputCtxPresent := false, outputCtxPresent := false,
                streamPresent := false, videoIntervalPresent := false,
                connectionState := ConnectionState.DISCONNECTED }, [])
  | Event.sourceEnded h =>
      ({ s with sourceNodes := s.sourceNodes.erase h }, [])

/-- The component state right after mount. -/
def initState : LiveState :=
  { connectionState := ConnectionState.DISCONNECTED, err := none,
    streamPresent := false, inputCtxPresent := false,
    outputCtxPresent := false, sessionPresent := false,
    videoIntervalPresent := false, isConnected := false,
    nextStartTime := 0, sourceNodes := [] }

/-- Run a sequence of events, collecting the emitted actions in order. -/
def run (s : LiveState) : List Event → LiveState × List Action
  | [] => (s, [])
  | e :: es =>
    let r := step s e
    let r2 := run r.1 es
    (r2.1, r.2 ++ r2.2)

/-- The start times of the chunks scheduled by a list of actions, in
emission order. -/
def startsOf (acts : List Action) : List ℚ :=
  acts.filterMap (fun a => match a with
    | Action.scheduleChunk _ st => some st
    | _ => none)

/-- The `onmessage` event of one inbound audio chunk:
`(now, duration, handle)`, carrying its data in the first part, decoding
successfully, with no interruption. -/
def chunkEvent (x : ℚ × ℚ × ℕ) : Event :=
  Event.onmessage [some "audio"] (some x.2.1) false x.1 x.2.2

/-- A trace made only of inbound audio-chunk messages. -/
def chunkTrace (l : List (ℚ × ℚ × ℕ)) : List Event := l.map chunkEvent

/-- Closed form of the scheduled start times for chunks `(now_i, d_i)`
starting from cursor `c`: each start is `max cursor now`, and the cursor
advances by the duration. -/
def schedStarts (c : ℚ) : List (ℚ × ℚ) → List ℚ
  | [] => []
  | (now, d) :: rest => max c now :: schedStarts (max c now + d) rest

/-- The final cursor after scheduling chunks `(now_i, d_i)` from cursor
`c`. -/
def schedCursor (c : ℚ) : List (ℚ × ℚ) → ℚ
  | [] => c
  | (now, d) :: rest => schedCursor (max c now + d) rest

/-- No pipeline stall: at each chunk's arrival the playback clock has not
overtaken the cursor. -/
def noStall (c : ℚ) : List (ℚ × ℚ) → Bool
  | [] => true
  | (now, d) :: rest => decide (now ≤ c) && noStall (c + d) rest

/-- Gapless start times from cursor `c` for durations `ds`: each chunk
starts exactly where the previous one ends. -/
def gapless (c : ℚ) : List ℚ → List ℚ
  | [] => []
  | d :: ds => c :: gapless (c + d) ds

/-- Model of JavaScript `String.prototype.trim`: drop whitespace from both
ends.  (`String.trim` of the Lean core library is defined by well-founded
recursion on byte positions; this structural version is used so that the
guard of `handleSend` evaluates.) -/
def trimLeadingWs : List Char → List Char
  | [] => []
  | c :: cs => if c.isWhitespace then trimLeadingWs cs else c :: cs

/-- See `trimLeadingWs`. -/
def jsTrim (s : String) : String :=
  String.mk ((trimLeadingWs ((trimLeadingWs s.data).reverse)).reverse)

/-- Role of a chat message (`types.ts`, field `role : 'user' | 'model'`). -/
inductive Role where
  | user
  | model
deriving DecidableEq

/-- `Message` from `types.ts` (the `timestamp` field carries no logic and is
dropped; `isThinking` is optional with default absent/false). -/
structure ChatMessage where
  id : String
  role : Role
  text : String
  isThinking : Bool
deriving DecidableEq

/-- One entry of the `contents` array of a `generateContent` request
(each entry of the source is `{ role, parts: [{ text }] }` with a single
text part). -/
structure Turn where
  role : Role
  text : String
deriving DecidableEq

/-- The React state of `DeepChat` that `handleSend` touches. -/
structure ChatState where
  messages : List ChatMessage
  input : String
  isLoading : Bool
deriving DecidableEq

/-- The fixed system-context turn prepended to every request. -/
def systemContextText : String :=
  "System Context: You are Maya, a virtual girlfriend. Provide thoughtful, emotionally intelligent advice."

/-- Fallback shown when `response.text` is absent or empty
(`response.text || "..."`). -/
def thinkingFallback : String :=
  "I\x27m thinking deeply about that, but I couldn\x27t find the right words."

/-- Message text appended when the request throws. -/
def errorReplyText : String :=
  "I\x27m having trouble connecting to my thoughts right now. Try again?"

/-- The `contents` array built by `handleSend`: the fixed system-context
turn, then `messages.slice(-5)` mapped to turns, then the new user turn. -/
def buildContents (messages : List ChatMessage) (input : String) : List Turn :=
  Turn.mk Role.user systemContextText ::
    ((messages.drop (messages.length - 5)).map (fun m => Turn.mk m.role m.text) ++
      [Turn.mk Role.user input])

/-- Outcome of the `generateContent` call: `ok t` resolves with
`response.text = t` (`none` = the field is undefined), `err` throws. -/
inductive ApiOutcome where
  | ok : Option String → ApiOutcome
  | err : ApiOutcome
deriving DecidableEq

/-- `handleSend` of `DeepChat.tsx`, run to completion (the guard, the user
message append, the input clear, the single request, the response/error
message append, and the final `isLoading := false`).  The returned list
collects the `contents` of every request issued.  `uid`/`mid` are the
`Date.now()`-derived ids of the appended messages.  Note the request is
built from the `messages` variable captured at call time, which does not
contain the just-appended user message. -/
def handleSend (s : ChatState) (apiKey : String) (outcome : ApiOutcome)
    (uid mid : String) : ChatState × List (List Turn) :=
  if jsTrim s.input = "" ∨ apiKey = "" then (s, [])
  else
    let userMsg : ChatMessage := ⟨uid, Role.user, s.input, false⟩
    let req := buildContents s.messages s.input
    match outcome with
    | ApiOutcome.ok t =>
      let txt := match t with
        | some r => if r = "" then thinkingFallback else r
        | none => thinkingFallback
      ({ messages := s.messages ++ [userMsg, ⟨mid, Role.model, txt, true⟩],
         input := "", isLoading := false }, [req])
    | ApiOutcome.err =>
      ({ messages := s.messages ++ [userMsg, ⟨mid, Role.model, errorReplyText, false⟩],
         input := "", isLoading := false }, [req])

/-- Truncation toward zero of a rational, as assignment to a JS
`Int16Array` truncates. -/
def ratTrunc (x : ℚ) : ℤ := if 0 ≤ x then ⌊x⌋ else ⌈x⌉

/-- Modelled from the spec: `createPcmBlob` is imported from
`utils/audio-utils`, a file absent from the sources; the spec describes its
per-sample conversion as clamping to `[-1, 1]` and scaling negative values
by `0x8000` and non-negative values by `0x7FFF` into a 16-bit signed
integer.  `clampSample` is the clamping half. -/
def clampSample (x : ℚ) : ℚ := max (-1) (min 1 x)

/-- Modelled from the spec: the per-sample float → int16 conversion of
`createPcmBlob` (see `clampSample`). -/
def pcm16 (x : ℚ) : ℤ :=
  let c := clampSample x
  if c < 0 then ratTrunc (c * 32768) else ratTrunc (c * 32767)

/-- Modelled from the spec: `createPcmBlob` converts an input buffer
sample-by-sample (the little-endian byte packing and the MIME tagging carry
no further arithmetic). -/
def createPcmBlob (samples : List ℚ) : List ℤ := samples.map pcm16

/-- Reference float → int16 conversion for the 1-LSB round-trip bound:
round-to-nearest with the uniform full-scale factor 32767. -/
def refInt16 (x : ℚ) : ℤ := round (clampSample x * 32767)

/-- Claim C6: teardown is idempotent — a second `disconnect` right after a
first one changes nothing and raises no error, and after it the session
handle, both audio contexts, the camera/microphone stream and the
video-frame timer are all released, with the connection state
`DISCONNECTED`. -/
theorem C6_disconnect_idempotent (s : LiveState) :
    (step (step s Event.disconnect).1 Event.disconnect).1 = (step s Event.disconnect).1
    ∧ (step (step s Event.disconnect).1 Event.disconnect).2 = []
    ∧ (step s Event.disconnect).2 = []
    ∧ (step s Event.disconnect).1.sessionPresent = false
    ∧ (step s Event.disconnect).1.inputCtxPresent = false
    ∧ (step s Event.disconnect).1.outputCtxPresent = false
    ∧ (step s Event.disconnect).1.streamPresent = false
    ∧ (step s Event.disconnect).1.videoIntervalPresent = false
    ∧ (step s Event.disconnect).1.isConnected = false
    ∧ (step s Event.disconnect).1.connectionState = ConnectionState.DISCONNECTED :=
  ⟨rfl, rfl, rfl, rfl, rfl, rfl, rfl, rfl, rfl, rfl⟩

/-- Claim C7: when camera/microphone acquisition fails on a call start, a
user-visible error is reported, the attempt aborts before the
`CONNECTING → CONNECTED` transition (the state never even leaves
`DISCONNECTED`), the machine ends in a non-connected state, and no media
stream is retained. -/
theorem C7_camera_denied (s : LiveState) (initOk : Bool) (t0 : ℚ)
    (hstate : s.connectionState = ConnectionState.DISCONNECTED)
    (hstream : s.streamPresent = false) :
    (step s (Event.connectCall true false initOk t0)).1.err =
        some "Camera/Mic permission denied or unavailable."
    ∧ (step s (Event.connectCall true false initOk t0)).1.connectionState =
        ConnectionState.DISCONNECTED
    ∧ (step s (Event.connectCall true false initOk t0)).1.connectionState ≠
        ConnectionState.CONNECTED
    ∧ (step s (Event.connectCall true false initOk t0)).1.streamPresent = false
    ∧ (step s (Event.connectCall true false initOk t0)).1.sessionPresent = s.sessionPresent
    ∧ (step s (Event.connectCall true false initOk t0)).1.isConnected = s.isConnected := by
  simp [step, connectCallStep, hstate, hstream]

/-- Witness for `C7_camera_denied` at the component's initial state. -/
theorem C7_camera_denied_witness :
    (step initState (Event.connectCall true false true 0)).1.err =
        some "Camera/Mic permission denied or unavailable."
    ∧ (step initState (Event.connectCall true false true 0)).1.connectionState =
        ConnectionState.DISCONNECTED
    ∧ (step initState (Event.connectCall true false true 0)).1.connectionState ≠
        ConnectionState.CONNECTED
    ∧ (step initState (Event.connectCall true false true 0)).1.streamPresent = false
    ∧ (step initState (Event.connectCall true false true 0)).1.sessionPresent =
        initState.sessionPresent
    ∧ (step initState (Event.connectCall true false true 0)).1.isConnected =
        initState.isConnected :=
  C7_camera_denied initState true 0 rfl rfl

/-- Claim C9: only the first part of an inbound model turn is examined —
the handler's result is independent of every part after the first, and a
message whose first part carries no inline data never schedules a chunk,
whatever the later parts contain. -/
theorem C9_first_part_only (s : LiveState) (p : Option String)
    (t t2 : List (Option String)) (decodeResult : Option ℚ)
    (interrupted : Bool) (now : ℚ) (handle h2 : ℕ) (st : ℚ) :
    step s (Event.onmessage (p :: t) decodeResult interrupted now handle) =
      step s (Event.onmessage (p :: t2) decodeResult interrupted now handle)
    ∧ Action.scheduleChunk h2 st ∉
        (step s (Event.onmessage (none :: t) decodeResult interrupted now handle)).2 := by
  constructor
  · rfl
  · cases interrupted <;> simp [step, onmessageStep, audioPhaseStep, firstPartData]

/-- Claim C10: with whitespace-only input or a missing API key, `handleSend`
is a no-op — the message list, the input field and the loading flag are
unchanged and no request is issued. -/
theorem C10_send_guard_noop (s : ChatState) (apiKey : String)
    (outcome : ApiOutcome) (uid mid : String)
    (h : jsTrim s.input = "" ∨ apiKey = "") :
    handleSend s apiKey outcome uid mid = (s, []) := by
  unfold handleSend
  rw [if_pos h]

/-- Witness for `C10_send_guard_noop`: a whitespace-only input with a
present API key. -/
theorem C10_send_guard_noop_witness :
    handleSend ⟨[], "   ", false⟩ "key" (ApiOutcome.ok (some "hi")) "1" "2" =
      (⟨[], "   ", false⟩, []) :=
  C10_send_guard_noop ⟨[], "   ", false⟩ "key" (ApiOutcome.ok (some "hi")) "1" "2"
    (Or.inl (by decide))

/-- The `onmessage` handler never changes the connected flag or the
connection state. -/
theorem onmessageStep_preserves_conn (s : LiveState) (parts : List (Option String))
    (decodeResult : Option ℚ) (interrupted : Bool) (now : ℚ) (handle : ℕ) :
    (onmessageStep s parts decodeResult interrupted now handle).1.isConnected = s.isConnected
    ∧ (onmessageStep s parts decodeResult interrupted now handle).1.connectionState =
        s.connectionState := by
  unfold onmessageStep audioPhaseStep
  cases hj : firstPartData parts <;> cases decodeResult <;> cases interrupted <;>
    simp only [hj] <;> split_ifs <;> simp

/-- A send of an outbound payload (audio PCM or video frame) is emitted only
when the connected flag is set at the moment the handler runs. -/
theorem send_requires_flag (s : LiveState) (e : Event)
    (h : Action.sendPcmChunk ∈ (step s e).2 ∨ Action.sendVideoFrame ∈ (step s e).2) :
    s.isConnected = true := by
  cases e with
  | connectCall apiKeyPresent cameraOk initOk t0 =>
      exfalso
      simp only [step, connectCallStep] at h
      split_ifs at h <;> simp_all
  | onopen => exfalso; simp_all [step]
  | audioCallback =>
      by_cases hc : s.isConnected ∧ s.sessionPresent
      · exact hc.1
      · exfalso; simp [step, hc] at h
  | videoTick =>
      by_cases hc : s.videoIntervalPresent ∧ s.isConnected ∧ s.sessionPresent
      · exact hc.2.1
      · exfalso; simp [step, hc] at h
  | onmessage parts decodeResult interrupted now handle =>
      exfalso
      simp only [step, onmessageStep, audioPhaseStep] at h
      cases hj : firstPartData parts <;> cases decodeResult <;> cases interrupted <;>
        simp only [hj] at h <;> split_ifs at h <;> simp_all
  | onclose => exfalso; simp_all [step]
  | onerror => exfalso; simp_all [step]
  | disconnect => exfalso; simp_all [step]
  | sourceEnded hd => exfalso; simp_all [step]

/-- The connected flag mirrors the state from above: whenever the flag is
set, the connection state is `CONNECTED`.  Preserved by every event. -/
def FlagInv (s : LiveState) : Prop :=
  s.isConnected = true → s.connectionState = ConnectionState.CONNECTED

/-- `FlagInv` is preserved by each step. -/
theorem flagInv_step (s : LiveState) (e : Event) (hs : FlagInv s) :
    FlagInv (step s e).1 := by
  cases e with
  | connectCall apiKeyPresent cameraOk initOk t0 =>
      have hflag : s.connectionState = ConnectionState.DISCONNECTED ∨
          s.connectionState = ConnectionState.ERROR → s.isConnected = false := by
        intro hd
        cases hcon : s.isConnected with
        | false => rfl
        | true => rcases hd with h1 | h1 <;> rw [hs hcon] at h1 <;> exact absurd h1 (by simp)
      simp only [step, connectCallStep]
      split_ifs with h1 h2 h3 h4
      · intro hc
        exact absurd (hflag h1) (by simp_all [FlagInv])
      · intro hc; simp at hc
      · exact fun hc => absurd (hflag h1) (by simp_all [FlagInv])
      · exact fun hc => absurd (hflag h1) (by simp_all [FlagInv])
      · exact hs
  | onopen => intro _; rfl
  | audioCallback =>
      have hsame : (step s Event.audioCallback).1 = s := by
        simp only [step]; split <;> rfl
      rw [hsame]; exact hs
  | videoTick =>
      have hsame : (step s Event.videoTick).1 = s := by
        simp only [step]; split <;> rfl
      rw [hsame]; exact hs
  | onmessage parts decodeResult interrupted now handle =>
      intro hc
      have hp := onmessageStep_preserves_conn s parts decodeResult interrupted now handle
      simp only [step] at hc ⊢
      rw [hp.2]
      exact hs (hp.1 ▸ hc)
  | onclose => intro hc; simp [step] at hc
  | onerror => intro hc; simp [step] at hc
  | disconnect => intro hc; simp [step] at hc
  | sourceEnded hd => intro hc; exact hs hc

/-- `FlagInv` holds in every state reachable from a given state satisfying
it. -/
theorem flagInv_run (s : LiveState) (es : List Event) (hs : FlagInv s) :
    FlagInv (run s es).1 := by
  induction es generalizing s with
  | nil => exact hs
  | cons e es ih => exact ih (step s e).1 (flagInv_step s e hs)

/-- Claim C1 (amended): for every reachable state of the component, an
outbound payload send (audio PCM or video frame) happens only while the
connection state is `CONNECTED` — the guard flag is checked at the moment
of each send and the flag implies the `CONNECTED` state.  (The claim's
corresponding statement for inbound chunk scheduling is false; see the
counterexample.) -/
theorem C1_sends_only_when_connected (es : List Event) (e : Event)
    (h : Action.sendPcmChunk ∈ (step (run initState es).1 e).2 ∨
         Action.sendVideoFrame ∈ (step (run initState es).1 e).2) :
    (run initState es).1.connectionState = ConnectionState.CONNECTED :=
  flagInv_run initState es (fun hc => by simp [initState] at hc)
    (send_requires_flag (run initState es).1 e h)

/-- Witness for `C1_sends_only_when_connected`: after a successful connect
and the `onopen` callback, the audio-capture callback sends, and the state
is indeed `CONNECTED`. -/
theorem C1_sends_only_when_connected_witness :
    (Action.sendPcmChunk ∈
        (step (run initState [Event.connectCall true true true 0, Event.onopen]).1
          Event.audioCallback).2 ∨
      Action.sendVideoFrame ∈
        (step (run initState [Event.connectCall true true true 0, Event.onopen]).1
          Event.audioCallback).2)
    ∧ (run initState [Event.connectCall true true true 0, Event.onopen]).1.connectionState =
        ConnectionState.CONNECTED := by
  have hmem : Action.sendPcmChunk ∈
      (step (run initState [Event.connectCall true true true 0, Event.onopen]).1
        Event.audioCallback).2 := by
    simp [run, step, connectCallStep, initState]
  exact ⟨Or.inl hmem,
    C1_sends_only_when_connected [Event.connectCall true true true 0, Event.onopen]
      Event.audioCallback (Or.inl hmem)⟩

/-- Trace reaching a disconnected state in which the output audio context
is still set (the `onclose` callback clears neither audio context). -/
def C1cexTrace : List Event :=
  [Event.connectCall true true true 0, Event.onopen, Event.onclose]

/-- Claim C1 is false for inbound chunk scheduling: after `onclose` the
state is `DISCONNECTED`, yet an inbound message that arrives then (for
example one queued before the close) still schedules its chunk, because the
`onmessage` handler checks only that the output audio context exists and
never consults the guard flag or the state. -/
theorem C1_counterexample :
    (run initState C1cexTrace).1.connectionState = ConnectionState.DISCONNECTED
    ∧ ConnectionState.DISCONNECTED ≠ ConnectionState.CONNECTED
    ∧ Action.scheduleChunk 7 1 ∈
        (step (run initState C1cexTrace).1
          (Event.onmessage [some "x"] (some 2) false 1 7)).2 := by
  refine ⟨?_, by simp, ?_⟩ <;>
    norm_num [run, step, onmessageStep, audioPhaseStep, connectCallStep, initState,
      C1cexTrace, firstPartData, max_def]

/-- The audio phase never changes the output-context ref, and its node set
is the previous one, possibly with the fresh handle prepended. -/
theorem audioPhaseStep_fields (s : LiveState) (chunk : Option String)
    (decodeResult : Option ℚ) (now : ℚ) (handle : ℕ) :
    (audioPhaseStep s chunk decodeResult now handle).1.outputCtxPresent = s.outputCtxPresent
    ∧ ((audioPhaseStep s chunk decodeResult now handle).1.sourceNodes = s.sourceNodes ∨
        (audioPhaseStep s chunk decodeResult now handle).1.sourceNodes =
          handle :: s.sourceNodes) := by
  unfold audioPhaseStep
  cases chunk <;> cases decodeResult <;> split_ifs <;> simp

/-- Any chunk scheduled by an inbound message starts no earlier than the
playback clock read when the message is handled. -/
theorem schedule_start_ge_clock (s : LiveState) (parts : List (Option String))
    (decodeResult : Option ℚ) (interrupted : Bool) (now : ℚ) (handle h2 : ℕ) (st : ℚ)
    (hm : Action.scheduleChunk h2 st ∈
        (step s (Event.onmessage parts decodeResult interrupted now handle)).2) :
    now ≤ st := by
  simp only [step, onmessageStep, audioPhaseStep] at hm
  cases hj : firstPartData parts <;> cases decodeResult <;> cases interrupted <;>
    simp only [hj] at hm <;> split_ifs at hm <;>
    simp_all [List.mem_map, le_sup_right]

/-- Claim C3: an interruption message stops every handle of the Active
Playback Handles set, leaves the set empty and resets the cursor to the
playback clock `now`; and any chunk scheduled afterwards (at a clock
`now2 ≥ now`) starts no earlier than `now`. -/
theorem C3_interruption (s : LiveState) (parts : List (Option String))
    (decodeResult : Option ℚ) (now : ℚ) (handle : ℕ)
    (hctx : s.outputCtxPresent = true) :
    (∀ hdl ∈ s.sourceNodes,
        Action.stopHandle hdl ∈
          (step s (Event.onmessage parts decodeResult true now handle)).2)
    ∧ (step s (Event.onmessage parts decodeResult true now handle)).1.sourceNodes = []
    ∧ (step s (Event.onmessage parts decodeResult true now handle)).1.nextStartTime = now
    ∧ (∀ (s2 : LiveState) (parts2 : List (Option String)) (d2 : Option ℚ)
         (i2 : Bool) (now2 : ℚ) (h2 : ℕ) (st : ℚ), now ≤ now2 →
        Action.scheduleChunk h2 st ∈
          (step s2 (Event.onmessage parts2 d2 i2 now2 h2)).2 →
        now ≤ st) := by
  have hf := audioPhaseStep_fields s (firstPartData parts) decodeResult now handle
  refine ⟨?_, ?_, ?_,
    fun s2 parts2 d2 i2 now2 h2 st hle hm =>
      hle.trans (schedule_start_ge_clock s2 parts2 d2 i2 now2 h2 h2 st hm)⟩
  · intro hdl hmem
    have hin : hdl ∈
        (audioPhaseStep s (firstPartData parts) decodeResult now handle).1.sourceNodes := by
      rcases hf.2 with hn | hn <;> rw [hn] <;> simp [hmem]
    simp [step, onmessageStep, List.mem_map, hin]
  · simp [step, onmessageStep]
  · simp only [step, onmessageStep]
    simp [hf.1, hctx]

/-- A connected-shaped state with two registered playback handles and the
cursor at 3, used to witness the interruption claim. -/
def c3WitnessState : LiveState :=
  { initState with outputCtxPresent := true,
                   sourceNodes := [1, 2],
                   nextStartTime := 3 }

/-- Witness for `C3_interruption`: `c3WitnessState` receiving a pure
interruption message at clock 4. -/
theorem C3_interruption_witness :
    (∀ hdl ∈ c3WitnessState.sourceNodes,
      Action.stopHandle hdl ∈
        (step c3WitnessState (Event.onmessage [] none true 4 0)).2)
    ∧ (step c3WitnessState (Event.onmessage [] none true 4 0)).1.sourceNodes = []
    ∧ (step c3WitnessState (Event.onmessage [] none true 4 0)).1.nextStartTime = 4
    ∧ (∀ (s2 : LiveState) (parts2 : List (Option String)) (d2 : Option ℚ)
         (i2 : Bool) (now2 : ℚ) (h2 : ℕ) (st : ℚ), (4 : ℚ) ≤ now2 →
        Action.scheduleChunk h2 st ∈
          (step s2 (Event.onmessage parts2 d2 i2 now2 h2)).2 →
        (4 : ℚ) ≤ st) :=
  C3_interruption c3WitnessState [] none 4 0 rfl

/-- Claim C5 (amended): when decoding an inbound chunk fails, the chunk is
dropped and the error logged, no handle is registered and nothing is
scheduled; the cursor is not advanced by any duration — it only undergoes
the pre-decode clamp `max cursor now`, so it is unchanged whenever the
playback clock has not overtaken it. -/
theorem C5_decode_failure (s : LiveState) (a : String) (rest : List (Option String))
    (now : ℚ) (handle : ℕ) (hctx : s.outputCtxPresent = true) :
    (step s (Event.onmessage (some a :: rest) none false now handle)).1.sourceNodes =
        s.sourceNodes
    ∧ (step s (Event.onmessage (some a :: rest) none false now handle)).2 =
        [Action.logError "Error decoding audio:"]
    ∧ (∀ (h2 : ℕ) (st : ℚ), Action.scheduleChunk h2 st ∉
        (step s (Event.onmessage (some a :: rest) none false now handle)).2)
    ∧ (step s (Event.onmessage (some a :: rest) none false now handle)).1.nextStartTime =
        max s.nextStartTime now
    ∧ (now ≤ s.nextStartTime →
        (step s (Event.onmessage (some a :: rest) none false now handle)).1.nextStartTime =
          s.nextStartTime) := by
  refine ⟨?_, ?_, ?_, ?_, fun hle => ?_⟩
  · simp [step, onmessageStep, audioPhaseStep, firstPartData, hctx]
  · simp [step, onmessageStep, audioPhaseStep, firstPartData, hctx]
  · simp [step, onmessageStep, audioPhaseStep, firstPartData, hctx]
  · simp [step, onmessageStep, audioPhaseStep, firstPartData, hctx]
  · simp [step, onmessageStep, audioPhaseStep, firstPartData, hctx, max_eq_left hle]

/-- Witness for `C5_decode_failure`: a connected-shaped state whose cursor
is ahead of the clock. -/
theorem C5_decode_failure_witness :
    (step { initState with outputCtxPresent := true, nextStartTime := 9 }
        (Event.onmessage [some "bad"] none false 4 0)).1.sourceNodes =
        ({ initState with outputCtxPresent := true, nextStartTime := 9 } : LiveState).sourceNodes
    ∧ (step { initState with outputCtxPresent := true, nextStartTime := 9 }
        (Event.onmessage [some "bad"] none false 4 0)).2 =
        [Action.logError "Error decoding audio:"]
    ∧ (∀ (h2 : ℕ) (st : ℚ), Action.scheduleChunk h2 st ∉
        (step { initState with outputCtxPresent := true, nextStartTime := 9 }
          (Event.onmessage [some "bad"] none false 4 0)).2)
    ∧ (step { initState with outputCtxPresent := true, nextStartTime := 9 }
        (Event.onmessage [some "bad"] none false 4 0)).1.nextStartTime = max 9 4
    ∧ ((4 : ℚ) ≤ 9 →
        (step { initState with outputCtxPresent := true, nextStartTime := 9 }
          (Event.onmessage [some "bad"] none false 4 0)).1.nextStartTime = 9) := by
  have h := C5_decode_failure { initState with outputCtxPresent := true, nextStartTime := 9 }
    "bad" [] 4 0 rfl
  exact h

/-- Prefix trace: successful connect (clock 0), `onopen`. -/
def C5cexTrace : List Event := [Event.connectCall true true true 0, Event.onopen]

/-- A decode-failing inbound chunk arriving at clock 5. -/
def C5cexEvent : Event := Event.onmessage [some "bad"] none false 5 1

/-- Claim C5 is false as stated: a decode-failing chunk can move the cursor.
After connecting at clock 0 the cursor is 0; a chunk that fails to decode at
clock 5 is dropped and logged and schedules nothing, yet the cursor becomes
5 — the `max`-clamp runs before the `try`, so "the cursor is not advanced"
does not hold. -/
theorem C5_counterexample :
    (run initState C5cexTrace).1.nextStartTime = 0
    ∧ (run initState (C5cexTrace ++ [C5cexEvent])).1.nextStartTime = 5
    ∧ (run initState (C5cexTrace ++ [C5cexEvent])).1.nextStartTime ≠
        (run initState C5cexTrace).1.nextStartTime
    ∧ Action.logError "Error decoding audio:" ∈
        (run initState (C5cexTrace ++ [C5cexEvent])).2
    ∧ (∀ (h2 : ℕ) (st : ℚ), Action.scheduleChunk h2 st ∉
        (run initState (C5cexTrace ++ [C5cexEvent])).2) := by
  refine ⟨?_, ?_, ?_, ?_, fun h2 st => ?_⟩ <;>
    norm_num [run, step, onmessageStep, audioPhaseStep, connectCallStep, initState,
      C5cexTrace, C5cexEvent, firstPartData, max_def]
  exact fun h => Action.noConfusion h

/-- One decodable chunk message handled in a state whose output context is
present: schedule at `max cursor now`, register the node, advance the
cursor by the duration. -/
theorem chunk_step_eq (s : LiveState) (x : ℚ × ℚ × ℕ)
    (hctx : s.outputCtxPresent = true) :
    step s (chunkEvent x) =
      ({ s with nextStartTime := max s.nextStartTime x.1 + x.2.1,
                sourceNodes := x.2.2 :: s.sourceNodes },
       [Action.scheduleChunk x.2.2 (max s.nextStartTime x.1)]) := by
  obtain ⟨now, d, h⟩ := x
  simp [chunkEvent, step, onmessageStep, audioPhaseStep, firstPartData, hctx]

/-- Running a trace of decodable chunk messages produces exactly the start
times of the closed-form recursion `schedStarts`. -/
theorem chunkRun_spec (l : List (ℚ × ℚ × ℕ)) :
    ∀ s : LiveState, s.outputCtxPresent = true →
      startsOf (run s (chunkTrace l)).2 =
        schedStarts s.nextStartTime (l.map (fun x => (x.1, x.2.1))) := by
  induction l with
  | nil => intro s _; simp [chunkTrace, run, startsOf, schedStarts]
  | cons x xs ih =>
    intro s hctx
    simp only [chunkTrace] at ih ⊢
    simp only [List.map_cons, run]
    rw [chunk_step_eq s x hctx]
    simp only [startsOf, List.filterMap_append] at ih ⊢
    rw [ih { s with nextStartTime := max s.nextStartTime x.1 + x.2.1,
                    sourceNodes := x.2.2 :: s.sourceNodes } hctx]
    simp [schedStarts]

/-- With non-negative durations, the scheduled start times never
decrease. -/
theorem schedStarts_chain (l : List (ℚ × ℚ)) :
    ∀ c : ℚ, (∀ x ∈ l, 0 ≤ x.2) → List.Chain' (· ≤ ·) (schedStarts c l) := by
  induction l with
  | nil => intro c _; simp [schedStarts]
  | cons x xs ih =>
    intro c hd
    obtain ⟨now, d⟩ := x
    rw [schedStarts, List.chain'_cons']
    refine ⟨?_, ih (max c now + d) (fun y hy => hd y (List.mem_cons_of_mem _ hy))⟩
    intro y hy
    cases xs with
    | nil => simp [schedStarts] at hy
    | cons z zs =>
      obtain ⟨n2, d2⟩ := z
      simp only [schedStarts, List.head?_cons, Option.mem_def, Option.some.injEq] at hy
      subst hy
      calc max c now ≤ max c now + d := le_add_of_nonneg_right (hd (now, d) (by simp))
        _ ≤ max (max c now + d) n2 := le_max_left _ _

/-- When the clock never overtakes the cursor, the closed-form start times
are exactly the gapless partial sums of the durations. -/
theorem schedStarts_noStall (l : List (ℚ × ℚ)) :
    ∀ c : ℚ, noStall c l = true →
      schedStarts c l = gapless c (l.map Prod.snd) := by
  induction l with
  | nil => intro c _; simp [schedStarts, gapless]
  | cons x xs ih =>
    intro c hns
    obtain ⟨now, d⟩ := x
    simp only [noStall, Bool.and_eq_true, decide_eq_true_eq] at hns
    simp only [schedStarts, List.map_cons, gapless]
    rw [max_eq_left hns.1, ih (c + d) hns.2]

/-- Claim C2 (amended): for a sequence of decodable inbound chunks handled
with the output context present, each start time is `max(cursor, clock)`
with the cursor then advanced by the chunk's duration (the `schedStarts`
recursion), the start times are non-decreasing, and they are exactly
back-to-back (`gapless`) provided the playback clock never overtakes the
cursor.  (The claim's unconditional back-to-back equality is false; see the
counterexample.) -/
theorem C2_gapless_schedule (s : LiveState) (l : List (ℚ × ℚ × ℕ))
    (hctx : s.outputCtxPresent = true)
    (hd : ∀ x ∈ l, 0 ≤ x.2.1) :
    startsOf (run s (chunkTrace l)).2 =
      schedStarts s.nextStartTime (l.map (fun x => (x.1, x.2.1)))
    ∧ List.Chain' (· ≤ ·) (startsOf (run s (chunkTrace l)).2)
    ∧ (noStall s.nextStartTime (l.map (fun x => (x.1, x.2.1))) = true →
        startsOf (run s (chunkTrace l)).2 =
          gapless s.nextStartTime (l.map (fun x => x.2.1))) := by
  have h1 := chunkRun_spec l s hctx
  refine ⟨h1, ?_, fun hns => ?_⟩
  · rw [h1]
    refine schedStarts_chain _ _ (fun y hy => ?_)
    obtain ⟨x, hx, rfl⟩ := List.mem_map.mp hy
    exact hd x hx
  · rw [h1, schedStarts_noStall _ _ hns, List.map_map]
    rfl

/-- The connected-shaped state used to witness the scheduling claims. -/
def c2WitnessState : LiveState := { initState with outputCtxPresent := true }

/-- Two chunks of durations 1 and 2, both arriving at clock 0. -/
def c2WitnessChunks : List (ℚ × ℚ × ℕ) := [(0, 1, 1), (0, 2, 2)]

/-- Witness for `C2_gapless_schedule` on `c2WitnessState` and
`c2WitnessChunks`. -/
theorem C2_gapless_schedule_witness :
    startsOf (run c2WitnessState (chunkTrace c2WitnessChunks)).2 =
      schedStarts c2WitnessState.nextStartTime
        (c2WitnessChunks.map (fun x => (x.1, x.2.1)))
    ∧ List.Chain' (· ≤ ·) (startsOf (run c2WitnessState (chunkTrace c2WitnessChunks)).2)
    ∧ (noStall c2WitnessState.nextStartTime
          (c2WitnessChunks.map (fun x => (x.1, x.2.1))) = true →
        startsOf (run c2WitnessState (chunkTrace c2WitnessChunks)).2 =
          gapless c2WitnessState.nextStartTime (c2WitnessChunks.map (fun x => x.2.1))) :=
  C2_gapless_schedule c2WitnessState c2WitnessChunks rfl (by decide)

/-- Connected trace followed by two decodable chunks of duration 1: the
first at clock 0, the second at clock 10 (the pipeline stalled). -/
def C2cexTrace : List Event :=
  [Event.connectCall true true true 0, Event.onopen,
   Event.onmessage [some "a"] (some 1) false 0 1,
   Event.onmessage [some "a"] (some 1) false 10 2]

/-- Claim C2 is false as stated: with the cursor at 0, a chunk of duration 1
at clock 0 starts at 0, but a second chunk arriving at clock 10 starts at
`max(1, 10) = 10`, not at the prior start plus the prior duration
(`0 + 1 = 1`) — the `max` with the playback clock breaks unconditional
back-to-back equality when the clock overtakes the cursor. -/
theorem C2_counterexample :
    startsOf (run initState C2cexTrace).2 = [0, 10]
    ∧ (10 : ℚ) ≠ 0 + 1 := by
  constructor
  · norm_num [run, step, onmessageStep, audioPhaseStep, connectCallStep, initState,
      C2cexTrace, startsOf, firstPartData, max_def, List.filterMap_cons,
      List.filterMap_nil]
  · norm_num

/-- Claim C8: with non-empty trimmed input and a present API key,
`handleSend` issues exactly one request; its contents are the fixed
system-context turn, then the last (at most) five prior turns — a suffix of
the prior message list of length `min 5 |messages|` — then the new user
turn; and what gets rendered is a plain text string appended as a model
message after the user message. -/
theorem C8_single_request (s : ChatState) (apiKey : String)
    (outcome : ApiOutcome) (uid mid : String)
    (hin : jsTrim s.input ≠ "") (hkey : apiKey ≠ "") :
    (handleSend s apiKey outcome uid mid).2 = [buildContents s.messages s.input]
    ∧ (handleSend s apiKey outcome uid mid).2.length = 1
    ∧ (∃ window : List ChatMessage,
        List.IsSuffix window s.messages
        ∧ window.length = min 5 s.messages.length
        ∧ buildContents s.messages s.input =
            Turn.mk Role.user systemContextText ::
              (window.map (fun m => Turn.mk m.role m.text) ++
                [Turn.mk Role.user s.input]))
    ∧ (∃ (txt : String) (think : Bool),
        (handleSend s apiKey outcome uid mid).1.messages =
          s.messages ++ [ChatMessage.mk uid Role.user s.input false,
            ChatMessage.mk mid Role.model txt think]) := by
  have hguard : ¬(jsTrim s.input = "" ∨ apiKey = "") := by
    intro hor
    rcases hor with h | h
    · exact hin h
    · exact hkey h
  have hwin : ∃ window : List ChatMessage,
      List.IsSuffix window s.messages
      ∧ window.length = min 5 s.messages.length
      ∧ buildContents s.messages s.input =
          Turn.mk Role.user systemContextText ::
            (window.map (fun m => Turn.mk m.role m.text) ++
              [Turn.mk Role.user s.input]) := by
    refine ⟨s.messages.drop (s.messages.length - 5), List.drop_suffix _ _, ?_, rfl⟩
    rw [List.length_drop]
    omega
  unfold handleSend
  rw [if_neg hguard]
  cases outcome with
  | ok t => exact ⟨rfl, rfl, hwin, ⟨_, true, rfl⟩⟩
  | err => exact ⟨rfl, rfl, hwin, ⟨errorReplyText, false, rfl⟩⟩

/-- The welcome message `DeepChat` starts with. -/
def welcomeMessage : ChatMessage :=
  ⟨"welcome", Role.model,
    "Hi love! I\x27m here if you need deep advice or just want to chat via text. What\x27s on your mind?",
    false⟩

/-- Witness for `C8_single_request`: one prior message, input `"hi"`, a
present key, and a response text `"ok"`. -/
theorem C8_single_request_witness :
    (handleSend ⟨[welcomeMessage], "hi", false⟩ "key" (ApiOutcome.ok (some "ok"))
        "10" "11").2 = [buildContents [welcomeMessage] "hi"]
    ∧ (handleSend ⟨[welcomeMessage], "hi", false⟩ "key" (ApiOutcome.ok (some "ok"))
        "10" "11").2.length = 1
    ∧ (∃ window : List ChatMessage,
        List.IsSuffix window [welcomeMessage]
        ∧ window.length = min 5 ([welcomeMessage] : List ChatMessage).length
        ∧ buildContents [welcomeMessage] "hi" =
            Turn.mk Role.user systemContextText ::
              (window.map (fun m => Turn.mk m.role m.text) ++
                [Turn.mk Role.user "hi"]))
    ∧ (∃ (txt : String) (think : Bool),
        (handleSend ⟨[welcomeMessage], "hi", false⟩ "key" (ApiOutcome.ok (some "ok"))
            "10" "11").1.messages =
          [welcomeMessage] ++ [ChatMessage.mk "10" Role.user "hi" false,
            ChatMessage.mk "11" Role.model txt think]) :=
  C8_single_request ⟨[welcomeMessage], "hi", false⟩ "key" (ApiOutcome.ok (some "ok"))
    "10" "11" (by decide) (by decide)

/-- The clamp lands in `[-1, 1]`. -/
theorem clampSample_mem (x : ℚ) : -1 ≤ clampSample x ∧ clampSample x ≤ 1 := by
  unfold clampSample
  exact ⟨le_max_left _ _, max_le (by norm_num) (min_le_left _ _)⟩

/-- The clamp is the identity on `[-1, 1]`. -/
theorem clampSample_eq_self (x : ℚ) (h1 : -1 ≤ x) (h2 : x ≤ 1) :
    clampSample x = x := by
  unfold clampSample
  rw [min_eq_right h2, max_eq_right h1]

/-- Every encoded sample is a signed 16-bit value. -/
theorem pcm16_bounds (x : ℚ) : -32768 ≤ pcm16 x ∧ pcm16 x ≤ 32767 := by
  obtain ⟨h1, h2⟩ := clampSample_mem x
  unfold pcm16 ratTrunc
  by_cases hneg : clampSample x < 0
  · rw [if_pos hneg,
      if_neg (not_le.mpr (mul_neg_of_neg_of_pos hneg (by norm_num)))]
    constructor
    · have hle : ((-32768 : ℤ) : ℚ) ≤ clampSample x * 32768 := by
        push_cast
        nlinarith
      calc (-32768 : ℤ) = ⌈((-32768 : ℤ) : ℚ)⌉ := (Int.ceil_intCast _).symm
        _ ≤ ⌈clampSample x * 32768⌉ := Int.ceil_mono hle
    · have hle : clampSample x * 32768 ≤ 0 :=
        le_of_lt (mul_neg_of_neg_of_pos hneg (by norm_num))
      have hcz : ⌈clampSample x * 32768⌉ ≤ (0 : ℤ) :=
        Int.ceil_le.mpr (by exact_mod_cast hle)
      omega
  · push_neg at hneg
    rw [if_neg (not_lt.mpr hneg), if_pos (mul_nonneg hneg (by norm_num))]
    constructor
    · have : (0 : ℤ) ≤ ⌊clampSample x * 32767⌋ :=
        Int.floor_nonneg.mpr (mul_nonneg hneg (by norm_num))
      omega
    · have hle : clampSample x * 32767 ≤ ((32767 : ℤ) : ℚ) := by
        push_cast
        nlinarith
      calc ⌊clampSample x * 32767⌋ ≤ ⌊((32767 : ℤ) : ℚ)⌋ := Int.floor_mono hle
        _ = 32767 := Int.floor_intCast _

/-- The encoder is within one least-significant bit of the reference
round-to-nearest conversion at full scale 32767. -/
theorem pcm16_close (x : ℚ) : |pcm16 x - refInt16 x| ≤ 1 := by
  obtain ⟨h1, h2⟩ := clampSample_mem x
  unfold pcm16 refInt16 ratTrunc
  rw [round_eq, abs_le]
  by_cases hneg : clampSample x < 0
  · rw [if_pos hneg,
      if_neg (not_le.mpr (mul_neg_of_neg_of_pos hneg (by norm_num)))]
    have e1 : clampSample x * 32768 ≤ (⌈clampSample x * 32768⌉ : ℚ) := Int.le_ceil _
    have e2 : ((⌊clampSample x * 32767 + 1 / 2⌋ : ℤ) : ℚ) ≤
        clampSample x * 32767 + 1 / 2 := Int.floor_le _
    constructor
    · by_contra hlt
      push_neg at hlt
      have hlt2 : ⌈clampSample x * 32768⌉ ≤ ⌊clampSample x * 32767 + 1 / 2⌋ - 2 := by
        omega
      have hltq : ((⌈clampSample x * 32768⌉ : ℤ) : ℚ) ≤
          ((⌊clampSample x * 32767 + 1 / 2⌋ : ℤ) : ℚ) - 2 := by
        exact_mod_cast hlt2
      linarith
    · have m1 : ⌈clampSample x * 32768⌉ ≤ ⌈clampSample x * 32767⌉ :=
        Int.ceil_mono (by linarith)
      have m2 : ⌈clampSample x * 32767⌉ ≤ ⌊clampSample x * 32767⌋ + 1 :=
        Int.ceil_le_floor_add_one _
      have m3 : ⌊clampSample x * 32767⌋ ≤ ⌊clampSample x * 32767 + 1 / 2⌋ :=
        Int.floor_mono (by linarith)
      omega
  · push_neg at hneg
    rw [if_neg (not_lt.mpr hneg), if_pos (mul_nonneg hneg (by norm_num))]
    have m3 : ⌊clampSample x * 32767⌋ ≤ ⌊clampSample x * 32767 + 1 / 2⌋ :=
      Int.floor_mono (by linarith)
    have m5 : ⌊clampSample x * 32767 + 1 / 2⌋ ≤ ⌊clampSample x * 32767⌋ + 1 := by
      have h4 : ⌊clampSample x * 32767 + 1 / 2⌋ ≤ ⌊clampSample x * 32767 + ((1 : ℤ) : ℚ)⌋ :=
        Int.floor_mono (by push_cast; linarith)
      rwa [Int.floor_add_int] at h4
    omega

/-- Claim C4: for a buffer of samples in `[-1, 1]` the PCM encoder produces
signed 16-bit integers in `[-32768, 32767]`, scaling negative samples by
0x8000 and non-negative samples by 0x7FFF, and each encoded sample is
within 1 LSB of the reference round-to-nearest float → int16 conversion. -/
theorem C4_pcm_encoder (buf : List ℚ) (hbuf : ∀ x ∈ buf, -1 ≤ x ∧ x ≤ 1) :
    (∀ z ∈ createPcmBlob buf, -32768 ≤ z ∧ z ≤ 32767)
    ∧ (∀ x ∈ buf, x < 0 → pcm16 x = ratTrunc (x * 32768))
    ∧ (∀ x ∈ buf, 0 ≤ x → pcm16 x = ratTrunc (x * 32767))
    ∧ (∀ x ∈ buf, |pcm16 x - refInt16 x| ≤ 1) := by
  refine ⟨?_, ?_, ?_, fun x _ => pcm16_close x⟩
  · intro z hz
    obtain ⟨x, _, rfl⟩ := List.mem_map.mp hz
    exact pcm16_bounds x
  · intro x hx hneg
    obtain ⟨h1, h2⟩ := hbuf x hx
    unfold pcm16
    rw [clampSample_eq_self x h1 h2, if_pos hneg]
  · intro x hx hpos
    obtain ⟨h1, h2⟩ := hbuf x hx
    unfold pcm16
    rw [clampSample_eq_self x h1 h2, if_neg (not_lt.mpr hpos)]

/-- Witness for `C4_pcm_encoder` on the buffer `[-1, 0, 1]`. -/
theorem C4_pcm_encoder_witness :
    (∀ z ∈ createPcmBlob [-1, 0, 1], -32768 ≤ z ∧ z ≤ 32767)
    ∧ (∀ x ∈ ([-1, 0, 1] : List ℚ), x < 0 → pcm16 x = ratTrunc (x * 32768))
    ∧ (∀ x ∈ ([-1, 0, 1] : List ℚ), 0 ≤ x → pcm16 x = ratTrunc (x * 32767))
    ∧ (∀ x ∈ ([-1, 0, 1] : List ℚ), |pcm16 x - refInt16 x| ≤ 1) :=
  C4_pcm_encoder [-1, 0, 1] (by decide)

end Soulmate
